import Mathlib

/-!
Verification of the text-summarizer application (src/app.py).

The application has three pieces of meaningful logic:
  * `load_api_key` — reads the credential file, trims it, and returns the
    trimmed contents, or `none` when the file is absent, unreadable or
    trims to the empty string;
  * `summarize_text` — builds a chat-completion payload, performs one HTTP
    POST, and extracts `result.choices[0].message.content` from the parsed
    response, converting every failure into a diagnostic string via the
    three Python exception handlers (RequestException, json.JSONDecodeError,
    and the catch-all `except Exception`);
  * `main` — the UI flow: blocks when the credential is unavailable, blocks
    on empty / whitespace-only input text, and otherwise invokes
    `summarize_text` and renders its result.

The embedding below models the outcome of the HTTP call explicitly (the
network is the environment), and models Python's dynamic field access
(`result['choices'][0]['message']['content']`) faithfully: a missing key
raises `KeyError`, subscripting a non-container raises `TypeError`, and so
on; those exceptions land in the catch-all handler exactly as in Python.
-/

namespace TextSummarizer

/-- Parsed JSON values: the shape of a decoded API response body. -/
inductive Json where
  | null : Json
  | bool (b : Bool) : Json
  | num (n : Int) : Json
  | str (s : String) : Json
  | arr (elems : List Json) : Json
  | obj (fields : List (String × Json)) : Json

/-- Python exceptions that can arise inside the `try` block of
`summarize_text`.  `requestException` covers connection errors, timeouts
and the `HTTPError` raised by `raise_for_status`; `jsonDecodeError` is
raised by `response.json()` on an unparseable body; the remaining
constructors are the runtime errors of the dynamic field accesses, which
only the catch-all handler catches. -/
inductive PyExc where
  | requestException (msg : String) : PyExc
  | jsonDecodeError (msg : String) : PyExc
  | typeError (msg : String) : PyExc
  | keyError (rendered : String) : PyExc
  | indexError (msg : String) : PyExc

/-- `str(e)` for a caught exception `e`: the text interpolated into the
diagnostic strings.  (For a `KeyError` Python renders the repr of the key,
e.g. `str(KeyError('message'))` is `'message'` with the quotes; the
`rendered` field already carries that form.) -/
def PyExc.text : PyExc → String
  | .requestException m => m
  | .jsonDecodeError m => m
  | .typeError m => m
  | .keyError r => r
  | .indexError m => m

-- Configuration constants from the top of app.py.

def API_KEY_FILE : String := "api_key.txt"

def OPENROUTER_API_URL : String := "https://openrouter.ai/api/v1/chat/completions"

def MODEL : String := "stepfun/step-3.5-flash:free"

/-- First-match lookup of a key in a JSON object's field list (Python dict
access `d[key]`, keys being unique in a parsed object). -/
def lookupField : List (String × Json) → String → Option Json
  | [], _ => none
  | (k, v) :: rest, key => if k = key then some v else lookupField rest key

/-- Python equality `x == key` between an arbitrary value and a string:
true only for an equal string. -/
def jsonEqStr (j : Json) (key : String) : Bool :=
  match j with
  | .str s => s = key
  | _ => false

/-- Whether the first list is an initial segment of the second. -/
def listIsPre : List Char → List Char → Bool
  | [], _ => true
  | _ :: _, [] => false
  | a :: as, b :: bs => a = b && listIsPre as bs

/-- Whether `pat` occurs as a contiguous run somewhere in the list. -/
def listIsSub (pat : List Char) : List Char → Bool
  | [] => listIsPre pat []
  | c :: rest => listIsPre pat (c :: rest) || listIsSub pat rest

/-- Python `key in j`: dict-key membership for objects, element membership
for lists, substring test for strings; `TypeError` otherwise. -/
def pyContains (j : Json) (key : String) : Except PyExc Bool :=
  match j with
  | .obj fields => .ok (lookupField fields key).isSome
  | .arr xs => .ok (xs.any (fun x => jsonEqStr x key))
  | .str s => .ok (listIsSub key.data s.data)
  | _ => .error (.typeError "argument of type is not iterable")

/-- Python `len(j)`: defined for lists, strings and dicts; `TypeError`
otherwise. -/
def pyLen (j : Json) : Except PyExc Nat :=
  match j with
  | .arr xs => .ok xs.length
  | .str s => .ok s.length
  | .obj fields => .ok fields.length
  | _ => .error (.typeError "object has no len")

/-- Python subscript `j[key]` with a string key: dict lookup (raising
`KeyError` when absent, whose `str` is the quoted key); `TypeError` on
lists, strings and non-containers. -/
def pyGetStr (j : Json) (key : String) : Except PyExc Json :=
  match j with
  | .obj fields =>
    match lookupField fields key with
    | some v => .ok v
    | none => .error (.keyError ("'" ++ key ++ "'"))
  | .arr _ => .error (.typeError "list indices must be integers or slices, not str")
  | .str _ => .error (.typeError "string indices must be integers")
  | _ => .error (.typeError "object is not subscriptable")

/-- Python subscript `j[i]` with a nonnegative integer index: list
indexing (raising `IndexError` out of range), one-character string for a
string, `KeyError` for a dict with string keys, `TypeError` otherwise. -/
def pyGetIdx (j : Json) (i : Nat) : Except PyExc Json :=
  match j with
  | .arr xs =>
    match xs.get? i with
    | some v => .ok v
    | none => .error (.indexError "list index out of range")
  | .str s =>
    match s.data.get? i with
    | some c => .ok (.str (String.mk [c]))
    | none => .error (.indexError "string index out of range")
  | .obj _ => .error (.keyError (toString i))
  | _ => .error (.typeError "object is not subscriptable")

/-- The whitespace characters removed by Python's `str.strip()`. -/
def isPyWhitespace (c : Char) : Bool :=
  c = ' ' || c = '\t' || c = '\n' || c = '\r' || c = '\x0b' || c = '\x0c'

/-- Python `s.strip()`: the string with leading and trailing whitespace
removed. -/
def pyStrip (s : String) : String :=
  String.mk (((s.data.dropWhile isPyWhitespace).reverse.dropWhile isPyWhitespace).reverse)

/-- The state of the credential file `api_key.txt` on disk. -/
inductive FileState where
  | absent : FileState
  | unreadable (errMsg : String) : FileState
  | present (data : String) : FileState

/-- `load_api_key` from app.py: `none` when the file does not exist, when
reading raises (the exception is caught, an error is shown, and `None` is
returned), or when the stripped contents are empty; otherwise the stripped
contents. -/
def load_api_key (fs : FileState) : Option String :=
  match fs with
  | .absent => none
  | .unreadable _ => none
  | .present data =>
    let api_key := pyStrip data
    if api_key = "" then none else some api_key

/-- One entry of the `messages` array of the request payload. -/
structure ChatMessage where
  role : String
  content : String

/-- The system-role instruction text built by `summarize_text`
(the f-string with `word_limit` interpolated). -/
def systemContent (word_limit : Nat) : String :=
  "You are a helpful assistant that creates concise and accurate summaries of text. Provide clear, well-structured summaries that capture the main points. Keep your summary to approximately "
    ++ toString word_limit ++ " words."

/-- The user-role instruction text built by `summarize_text`. -/
def userContent (text : String) (word_limit : Nat) : String :=
  "Please summarize the following text in approximately "
    ++ toString word_limit ++ " words:\n\n" ++ text

/-- The `messages` array of the request payload. -/
def payloadMessages (text : String) (word_limit : Nat) : List ChatMessage :=
  [⟨"system", systemContent word_limit⟩, ⟨"user", userContent text word_limit⟩]

/-- The request headers built by `summarize_text`. -/
def requestHeaders (api_key : String) : List (String × String) :=
  [("Authorization", "Bearer " ++ api_key),
   ("Content-Type", "application/json"),
   ("HTTP-Referer", "http://localhost:8501"),
   ("X-Title", "Text Summarizer")]

/-- The outcome of the HTTP POST, as seen by `summarize_text`: either the
call itself failed (connection error, timeout — a `RequestException`), or
a response arrived with a status code and a body; `body` is the result of
parsing the body as JSON (`none` when it is not valid JSON, in which case
`response.json()` raises `json.JSONDecodeError`). -/
inductive HttpOutcome where
  | failure (msg : String) : HttpOutcome
  | response (status : Nat) (body : Option Json) : HttpOutcome

/-- The message of the `HTTPError` raised by `response.raise_for_status()`
for a 4xx or 5xx status. -/
def raiseForStatusMsg (status : Nat) : String :=
  if status < 500 then
    toString status ++ " Client Error for url: " ++ OPENROUTER_API_URL
  else
    toString status ++ " Server Error for url: " ++ OPENROUTER_API_URL

/-- The body of the `if` statement of `summarize_text` applied to the
parsed response:
`if 'choices' in result and len(result['choices']) > 0:` then
`result['choices'][0]['message']['content']` else the fixed
unexpected-format diagnostic.  Every dynamic-access error propagates as
the Python exception it raises. -/
def processResult (result : Json) : Except PyExc Json :=
  match pyContains result "choices" with
  | .error e => .error e
  | .ok false => .ok (.str "Error: Unexpected response format from API")
  | .ok true =>
    match pyGetStr result "choices" with
    | .error e => .error e
    | .ok choices =>
      match pyLen choices with
      | .error e => .error e
      | .ok n =>
        if 0 < n then
          match pyGetStr result "choices" with
          | .error e => .error e
          | .ok choices2 =>
            match pyGetIdx choices2 0 with
            | .error e => .error e
            | .ok c0 =>
              match pyGetStr c0 "message" with
              | .error e => .error e
              | .ok msg =>
                match pyGetStr msg "content" with
                | .error e => .error e
                | .ok content => .ok content
        else
          .ok (.str "Error: Unexpected response format from API")

/-- The whole `try` block of `summarize_text`: the POST itself, then
`raise_for_status`, then `response.json()`, then `processResult`. -/
def tryBlock (outcome : HttpOutcome) : Except PyExc Json :=
  match outcome with
  | .failure msg => .error (.requestException msg)
  | .response status body =>
    if 400 ≤ status ∧ status < 600 then
      .error (.requestException (raiseForStatusMsg status))
    else
      match body with
      | none => .error (.jsonDecodeError "Expecting value: line 1 column 1 (char 0)")
      | some result => processResult result

/-- The three `except` handlers of `summarize_text`, in order:
`requests.exceptions.RequestException`, `json.JSONDecodeError`, and the
catch-all `except Exception`. -/
def handleExc : PyExc → String
  | .requestException m => "Error making API request: " ++ m
  | .jsonDecodeError _ => "Error: Could not parse API response"
  | e => "Unexpected error: " ++ e.text

/-- `summarize_text` from app.py, as a function of its three arguments and
of the HTTP outcome supplied by the environment.  The result is the Python
value the function returns: the extracted content on success, and a
diagnostic string (`Json.str`) on every handled failure. -/
def summarize_text (text api_key : String) (word_limit : Nat)
    (outcome : HttpOutcome) : Json :=
  match tryBlock outcome with
  | .ok v => v
  | .error e => .str (handleExc e)

/-- What the summary placeholder of the UI ends up showing. -/
inductive Rendered where
  | apiKeyMissingError : Rendered
  | warning (msg : String) : Rendered
  | summaryShown (s : Json) : Rendered
  | idleInfo : Rendered

/-- The observable result of one run of `main`: what was rendered, and
whether `summarize_text` (hence the network call) was invoked. -/
structure MainResult where
  rendered : Rendered
  summarizeCalled : Bool

/-- `main` from app.py, reduced to its decision logic: load the key and
block with an error when it is unavailable; on a button click, block with
a warning when the input text is empty or whitespace-only
(`if not user_text or not user_text.strip()`), otherwise call
`summarize_text` and render its result. -/
def main (fs : FileState) (user_text : String) (word_limit : Nat)
    (button_clicked : Bool) (outcome : HttpOutcome) : MainResult :=
  match load_api_key fs with
  | none => ⟨.apiKeyMissingError, false⟩
  | some api_key =>
    if button_clicked then
      if user_text = "" || pyStrip user_text = "" then
        ⟨.warning "⚠️ Please enter some text to summarize.", false⟩
      else
        ⟨.summaryShown (summarize_text user_text api_key word_limit outcome), true⟩
    else
      ⟨.idleInfo, false⟩

/-- The spec-level extraction `choices[0].message.content` of a parsed
response, used to phrase what the success path of `summarize_text`
returns. -/
def firstChoiceContent (j : Json) : Option Json :=
  match j with
  | .obj fields =>
    match lookupField fields "choices" with
    | some (.arr (c0 :: _)) =>
      match c0 with
      | .obj f0 =>
        match lookupField f0 "message" with
        | some (.obj fm) => lookupField fm "content"
        | _ => none
      | _ => none
    | _ => none
  | _ => none

/-! ### Helper lemmas -/

/-- A list is an initial segment of itself followed by anything. -/
theorem listIsPre_append (l m : List Char) : listIsPre l (l ++ m) = true := by
  induction l with
  | nil => rfl
  | cons a as ih => simp [listIsPre, ih]

/-- A string whose characters do not start with those of `p` is not of the
form `p ++ m`. -/
theorem string_append_ne {p t : String} (h : listIsPre p.data t.data = false)
    (m : String) : p ++ m ≠ t := by
  intro he
  rw [← he] at h
  have h2 : (p ++ m).data = p.data ++ m.data := rfl
  rw [h2, listIsPre_append] at h
  exact Bool.noConfusion h

/-! ### Claims -/

/-- Claim C4 (amended): on every transport-level failure of the HTTP
call — a connection error or timeout (the `failure` outcome), or a
4xx/5xx status turned into an `HTTPError` by `raise_for_status` (the only
statuses for which it raises) — `summarize_text` returns a diagnostic
string embedding the underlying transport error description, and does not
raise (it returns a value in every such case).  A non-2xx status outside
400–599 is not treated as a transport failure: see the counterexample
below, where a 300 response is parsed normally. -/
theorem summarize_transport_failure_diagnostic
    (text api_key : String) (word_limit : Nat) :
    (∀ msg, summarize_text text api_key word_limit (HttpOutcome.failure msg)
        = Json.str ("Error making API request: " ++ msg))
    ∧ (∀ status body, 400 ≤ status → status < 600 →
        summarize_text text api_key word_limit (HttpOutcome.response status body)
          = Json.str ("Error making API request: " ++ raiseForStatusMsg status)) := by
  constructor
  · intro msg; rfl
  · intro status body h1 h2
    simp [summarize_text, tryBlock, h1, h2, handleExc]

theorem summarize_transport_failure_diagnostic_witness :
    summarize_text "t" "k" 100 (HttpOutcome.failure "connection refused")
        = Json.str ("Error making API request: " ++ "connection refused")
    ∧ summarize_text "t" "k" 100 (HttpOutcome.response 404 none)
        = Json.str ("Error making API request: " ++ raiseForStatusMsg 404) :=
  ⟨(summarize_transport_failure_diagnostic "t" "k" 100).1 "connection refused",
   (summarize_transport_failure_diagnostic "t" "k" 100).2 404 none (by decide) (by decide)⟩

/-- The unamended claim C4 fails for non-2xx statuses outside 400–599:
`raise_for_status` does not raise on a 3xx response, so a status-300
response with a parseable body falls through to the `choices` logic and
yields the unexpected-shape diagnostic, which is not a transport
diagnostic embedding an error description. -/
theorem summarize_status_300_not_transport_counterexample :
    summarize_text "t" "k" 100 (HttpOutcome.response 300 (some (Json.obj [])))
        = Json.str "Error: Unexpected response format from API"
    ∧ ¬ ∃ m, summarize_text "t" "k" 100 (HttpOutcome.response 300 (some (Json.obj [])))
        = Json.str ("Error making API request: " ++ m) := by
  constructor
  · rfl
  · intro ⟨m, h⟩
    have h2 : Json.str "Error: Unexpected response format from API"
        = Json.str ("Error making API request: " ++ m) := h
    injection h2 with hs
    exact string_append_ne (by decide) m hs.symm

/-- Claim C2: when the response body is not parseable as JSON (and the
transport succeeded with a non-error status), `summarize_text` returns the
fixed parse-failure diagnostic, which is distinct from every
transport-failure diagnostic and every generic catch-all diagnostic. -/
theorem summarize_parse_failure_diagnostic
    (text api_key : String) (word_limit status : Nat)
    (hstatus : ¬ (400 ≤ status ∧ status < 600)) :
    summarize_text text api_key word_limit (HttpOutcome.response status none)
        = Json.str "Error: Could not parse API response"
    ∧ (∀ m, "Error making API request: " ++ m ≠ "Error: Could not parse API response")
    ∧ (∀ m, "Unexpected error: " ++ m ≠ "Error: Could not parse API response") := by
  refine ⟨?_, ?_, ?_⟩
  · simp [summarize_text, tryBlock, hstatus, handleExc]
  · exact fun m => string_append_ne (by decide) m
  · exact fun m => string_append_ne (by decide) m

theorem summarize_parse_failure_diagnostic_witness :
    summarize_text "t" "k" 100 (HttpOutcome.response 200 none)
      = Json.str "Error: Could not parse API response" :=
  (summarize_parse_failure_diagnostic "t" "k" 100 200 (by decide)).1

/-- Claim C5: for every word limit in [30,150], the request payload built
by `summarize_text` has a system-role message whose content contains the
decimal representation of that exact word limit. -/
theorem system_instruction_contains_word_limit
    (text : String) (word_limit : Nat)
    (h1 : 30 ≤ word_limit) (h2 : word_limit ≤ 150) :
    ∃ msg ∈ payloadMessages text word_limit, msg.role = "system"
      ∧ ∃ a b, msg.content = a ++ toString word_limit ++ b := by
  refine ⟨⟨"system", systemContent word_limit⟩, by simp [payloadMessages], rfl,
    "You are a helpful assistant that creates concise and accurate summaries of text. Provide clear, well-structured summaries that capture the main points. Keep your summary to approximately ",
    " words.", rfl⟩

theorem system_instruction_contains_word_limit_witness :
    ∃ msg ∈ payloadMessages "some text" 100, msg.role = "system"
      ∧ ∃ a b, msg.content = a ++ toString 100 ++ b :=
  system_instruction_contains_word_limit "some text" 100 (by decide) (by decide)

/-- Claim C6: `load_api_key` yields the trimmed file contents when the
file is present and trims to something non-empty (in particular the file
contents `"  sk-test-123  \n"` yield `"sk-test-123"`), and yields `none`
when the file is absent, unreadable, or trims to the empty string. -/
theorem load_api_key_correct (data : String) :
    load_api_key FileState.absent = none
    ∧ (∀ e, load_api_key (FileState.unreadable e) = none)
    ∧ (pyStrip data ≠ "" → load_api_key (FileState.present data) = some (pyStrip data))
    ∧ (pyStrip data = "" → load_api_key (FileState.present data) = none)
    ∧ load_api_key (FileState.present "  sk-test-123  \n") = some "sk-test-123" := by
  refine ⟨rfl, fun e => rfl, ?_, ?_, by decide⟩
  · intro h; simp [load_api_key, h]
  · intro h; simp [load_api_key, h]

theorem load_api_key_correct_witness :
    (pyStrip "  sk-test-123  \n" ≠ ""
      ∧ load_api_key (FileState.present "  sk-test-123  \n")
          = some (pyStrip "  sk-test-123  \n"))
    ∧ (pyStrip " \n " = "" ∧ load_api_key (FileState.present " \n ") = none) :=
  ⟨⟨by decide, (load_api_key_correct "  sk-test-123  \n").2.2.1 (by decide)⟩,
   ⟨by decide, (load_api_key_correct " \n ").2.2.2.1 (by decide)⟩⟩

/-- Claim C7: when the input text is empty or whitespace-only, `main`
never invokes `summarize_text` (no network call happens), and in the
situation where the call would otherwise have been made (credential
loaded, button clicked) the validation warning is rendered instead. -/
theorem empty_text_blocks_network_call
    (fs : FileState) (user_text : String) (word_limit : Nat)
    (button : Bool) (outcome : HttpOutcome)
    (htext : pyStrip user_text = "") :
    (main fs user_text word_limit button outcome).summarizeCalled = false
    ∧ (∀ k, load_api_key fs = some k → button = true →
        (main fs user_text word_limit button outcome).rendered
          = Rendered.warning "⚠️ Please enter some text to summarize.") := by
  constructor
  · cases hk : load_api_key fs with
    | none => simp [main, hk]
    | some k => cases button <;> simp [main, hk, htext]
  · intro k hk hb
    subst hb
    simp [main, hk, htext]

theorem empty_text_blocks_network_call_witness :
    pyStrip "  \n " = ""
    ∧ (main (FileState.present "sk-key") "  \n " 100 true (HttpOutcome.failure "x")).summarizeCalled
        = false
    ∧ (main (FileState.present "sk-key") "  \n " 100 true (HttpOutcome.failure "x")).rendered
        = Rendered.warning "⚠️ Please enter some text to summarize." :=
  ⟨by decide,
   (empty_text_blocks_network_call (FileState.present "sk-key") "  \n " 100 true
      (HttpOutcome.failure "x") (by decide)).1,
   (empty_text_blocks_network_call (FileState.present "sk-key") "  \n " 100 true
      (HttpOutcome.failure "x") (by decide)).2 "sk-key" (by decide) rfl⟩

/-- Claim C8: when the credential is unavailable — the file is absent,
unreadable, or trims to empty — `main` blocks before any network call:
`summarize_text` is never invoked and the missing-API-key error screen is
rendered. -/
theorem missing_credential_blocks_network_call
    (fs : FileState) (user_text : String) (word_limit : Nat)
    (button : Bool) (outcome : HttpOutcome)
    (hcred : fs = FileState.absent ∨ (∃ e, fs = FileState.unreadable e)
      ∨ ∃ d, fs = FileState.present d ∧ pyStrip d = "") :
    (main fs user_text word_limit button outcome).summarizeCalled = false
    ∧ (main fs user_text word_limit button outcome).rendered
        = Rendered.apiKeyMissingError := by
  have hk : load_api_key fs = none := by
    rcases hcred with h | ⟨e, h⟩ | ⟨d, h, hs⟩
    · subst h; rfl
    · subst h; rfl
    · subst h; simp [load_api_key, hs]
  exact ⟨by simp [main, hk], by simp [main, hk]⟩

theorem missing_credential_blocks_network_call_witness :
    (main FileState.absent "some text" 100 true (HttpOutcome.failure "x")).summarizeCalled = false
    ∧ (main FileState.absent "some text" 100 true (HttpOutcome.failure "x")).rendered
        = Rendered.apiKeyMissingError :=
  missing_credential_blocks_network_call FileState.absent "some text" 100 true
    (HttpOutcome.failure "x") (Or.inl rfl)

/-- Claim C1: on a well-formed non-error response whose `choices` array is
non-empty and whose first choice carries a `message.content` string,
`summarize_text` returns that content string verbatim — no trimming, no
post-processing, no word-count enforcement. -/
theorem summarize_returns_first_choice_content_verbatim
    (text api_key : String) (word_limit status : Nat)
    (hstatus : ¬ (400 ≤ status ∧ status < 600))
    (fields c0fields mfields : List (String × Json)) (rest : List Json) (s : String)
    (hchoices : lookupField fields "choices" = some (Json.arr (Json.obj c0fields :: rest)))
    (hmsg : lookupField c0fields "message" = some (Json.obj mfields))
    (hcontent : lookupField mfields "content" = some (Json.str s)) :
    summarize_text text api_key word_limit
      (HttpOutcome.response status (some (Json.obj fields))) = Json.str s := by
  simp [summarize_text, tryBlock, hstatus, processResult, pyContains, pyGetStr, pyLen,
    pyGetIdx, hchoices, hmsg, hcontent]

theorem summarize_returns_first_choice_content_verbatim_witness :
    summarize_text "Some text" "sk-key" 100
      (HttpOutcome.response 200 (some (Json.obj
        [("choices", Json.arr [Json.obj [("message", Json.obj [("content", Json.str "Hello world")])]])])))
      = Json.str "Hello world" :=
  summarize_returns_first_choice_content_verbatim "Some text" "sk-key" 100 200 (by decide)
    [("choices", Json.arr [Json.obj [("message", Json.obj [("content", Json.str "Hello world")])]])]
    [("message", Json.obj [("content", Json.str "Hello world")])]
    [("content", Json.str "Hello world")] [] "Hello world" rfl rfl rfl

/-- Claim C3: on a parseable non-error response that is an object with no
`choices` field, or whose `choices` field is the empty array,
`summarize_text` returns the fixed unexpected-response-shape
diagnostic. -/
theorem summarize_unexpected_shape_diagnostic
    (text api_key : String) (word_limit status : Nat)
    (hstatus : ¬ (400 ≤ status ∧ status < 600))
    (fields : List (String × Json))
    (hshape : lookupField fields "choices" = none
      ∨ lookupField fields "choices" = some (Json.arr [])) :
    summarize_text text api_key word_limit
      (HttpOutcome.response status (some (Json.obj fields)))
      = Json.str "Error: Unexpected response format from API" := by
  cases hshape with
  | inl h => simp [summarize_text, tryBlock, hstatus, processResult, pyContains, h]
  | inr h =>
    simp [summarize_text, tryBlock, hstatus, processResult, pyContains, pyGetStr, pyLen, h]

theorem summarize_unexpected_shape_diagnostic_witness :
    summarize_text "t" "k" 100 (HttpOutcome.response 200 (some (Json.obj [])))
        = Json.str "Error: Unexpected response format from API"
    ∧ summarize_text "t" "k" 100
        (HttpOutcome.response 200 (some (Json.obj [("choices", Json.arr [])])))
        = Json.str "Error: Unexpected response format from API" :=
  ⟨summarize_unexpected_shape_diagnostic "t" "k" 100 200 (by decide) [] (Or.inl rfl),
   summarize_unexpected_shape_diagnostic "t" "k" 100 200 (by decide)
     [("choices", Json.arr [])] (Or.inr rfl)⟩

/-- Claim C10: on a parseable non-error response with a non-empty
`choices` array whose first choice is an object lacking the `message`
field, or whose `message` object lacks the `content` field, the resulting
`KeyError` lands in the catch-all handler: `summarize_text` returns a
generic diagnostic prefixed with the text `Unexpected error:` and not the
fixed unexpected-response-shape diagnostic. -/
theorem missing_message_or_content_generic_diagnostic
    (text api_key : String) (word_limit status : Nat)
    (hstatus : ¬ (400 ≤ status ∧ status < 600))
    (fields c0fields : List (String × Json)) (rest : List Json)
    (hchoices : lookupField fields "choices" = some (Json.arr (Json.obj c0fields :: rest)))
    (hmiss : lookupField c0fields "message" = none
      ∨ ∃ mfields, lookupField c0fields "message" = some (Json.obj mfields)
          ∧ lookupField mfields "content" = none) :
    (∃ m, summarize_text text api_key word_limit
        (HttpOutcome.response status (some (Json.obj fields)))
        = Json.str ("Unexpected error: " ++ m))
    ∧ summarize_text text api_key word_limit
        (HttpOutcome.response status (some (Json.obj fields)))
        ≠ Json.str "Error: Unexpected response format from API" := by
  have hres : summarize_text text api_key word_limit
      (HttpOutcome.response status (some (Json.obj fields)))
      = Json.str ("Unexpected error: " ++ "'message'")
    ∨ summarize_text text api_key word_limit
        (HttpOutcome.response status (some (Json.obj fields)))
        = Json.str ("Unexpected error: " ++ "'content'") := by
    rcases hmiss with h | ⟨mfields, h, hc⟩
    · exact Or.inl (by simp [summarize_text, tryBlock, hstatus, processResult, pyContains,
        pyGetStr, pyLen, pyGetIdx, hchoices, h, handleExc, PyExc.text])
    · exact Or.inr (by simp [summarize_text, tryBlock, hstatus, processResult, pyContains,
        pyGetStr, pyLen, pyGetIdx, hchoices, h, hc, handleExc, PyExc.text])
  rcases hres with h | h
  · refine ⟨⟨"'message'", h⟩, ?_⟩
    rw [h]
    intro he
    injection he with hs
    exact absurd hs (by decide)
  · refine ⟨⟨"'content'", h⟩, ?_⟩
    rw [h]
    intro he
    injection he with hs
    exact absurd hs (by decide)

theorem missing_message_or_content_generic_diagnostic_witness :
    (∃ m, summarize_text "t" "k" 100
        (HttpOutcome.response 200 (some (Json.obj
          [("choices", Json.arr [Json.obj [("role", Json.str "assistant")]])])))
        = Json.str ("Unexpected error: " ++ m))
    ∧ summarize_text "t" "k" 100
        (HttpOutcome.response 200 (some (Json.obj
          [("choices", Json.arr [Json.obj [("role", Json.str "assistant")]])])))
        ≠ Json.str "Error: Unexpected response format from API" :=
  missing_message_or_content_generic_diagnostic "t" "k" 100 200 (by decide)
    [("choices", Json.arr [Json.obj [("role", Json.str "assistant")]])]
    [("role", Json.str "assistant")] [] rfl (Or.inl rfl)

/-- When `processResult` succeeds, its value is either the fixed
unexpected-shape diagnostic (the `else` branch) or exactly the
`choices[0].message.content` value of the response: every other path of
the dynamic field access raises an exception. -/
theorem processResult_ok (j v : Json) (h : processResult j = Except.ok v) :
    v = Json.str "Error: Unexpected response format from API"
    ∨ firstChoiceContent j = some v := by
  cases j with
  | null => simp [processResult, pyContains] at h
  | bool b => simp [processResult, pyContains] at h
  | num n => simp [processResult, pyContains] at h
  | str s =>
    cases hb : listIsSub "choices".data s.data <;>
      simp [processResult, pyContains, pyGetStr, hb] at h
    exact Or.inl h.symm
  | arr xs =>
    cases hb : xs.any (fun x => jsonEqStr x "choices") <;>
      simp [processResult, pyContains, pyGetStr, hb] at h
    exact Or.inl h.symm
  | obj fields =>
    cases hc : lookupField fields "choices" with
    | none =>
      simp [processResult, pyContains, hc] at h
      exact Or.inl h.symm
    | some w =>
      cases w with
      | null => simp [processResult, pyContains, pyGetStr, pyLen, hc] at h
      | bool b => simp [processResult, pyContains, pyGetStr, pyLen, hc] at h
      | num n => simp [processResult, pyContains, pyGetStr, pyLen, hc] at h
      | str s =>
        by_cases hl : 0 < s.length
        · cases hz : s.data.get? 0 <;>
            simp [processResult, pyContains, pyGetStr, pyLen, pyGetIdx, hc, hl, hz] at h
        · simp [processResult, pyContains, pyGetStr, pyLen, hc, hl] at h
          exact Or.inl h.symm
      | obj f2 =>
        by_cases hl : 0 < f2.length
        · simp [processResult, pyContains, pyGetStr, pyLen, pyGetIdx, hc, hl] at h
        · simp [processResult, pyContains, pyGetStr, pyLen, hc, hl] at h
          exact Or.inl h.symm
      | arr xs =>
        cases xs with
        | nil =>
          simp [processResult, pyContains, pyGetStr, pyLen, hc] at h
          exact Or.inl h.symm
        | cons c0 rest =>
          cases c0 with
          | null => simp [processResult, pyContains, pyGetStr, pyLen, pyGetIdx, hc] at h
          | bool b => simp [processResult, pyContains, pyGetStr, pyLen, pyGetIdx, hc] at h
          | num n => simp [processResult, pyContains, pyGetStr, pyLen, pyGetIdx, hc] at h
          | str s => simp [processResult, pyContains, pyGetStr, pyLen, pyGetIdx, hc] at h
          | arr ys => simp [processResult, pyContains, pyGetStr, pyLen, pyGetIdx, hc] at h
          | obj f0 =>
            cases hm : lookupField f0 "message" with
            | none =>
              simp [processResult, pyContains, pyGetStr, pyLen, pyGetIdx, hc, hm] at h
            | some m =>
              cases m with
              | null => simp [processResult, pyContains, pyGetStr, pyLen, pyGetIdx, hc, hm] at h
              | bool b => simp [processResult, pyContains, pyGetStr, pyLen, pyGetIdx, hc, hm] at h
              | num n => simp [processResult, pyContains, pyGetStr, pyLen, pyGetIdx, hc, hm] at h
              | str s => simp [processResult, pyContains, pyGetStr, pyLen, pyGetIdx, hc, hm] at h
              | arr ys => simp [processResult, pyContains, pyGetStr, pyLen, pyGetIdx, hc, hm] at h
              | obj fm =>
                cases hct : lookupField fm "content" with
                | none =>
                  simp [processResult, pyContains, pyGetStr, pyLen, pyGetIdx, hc, hm, hct] at h
                | some v2 =>
                  simp [processResult, pyContains, pyGetStr, pyLen, pyGetIdx, hc, hm, hct] at h
                  exact Or.inr (by simp [firstChoiceContent, hc, hm, hct, h])

/-- Claim C9 (amended): `summarize_text` never propagates an exception —
every outcome is mapped to a returned value, with all three handlers
producing diagnostic strings — and the returned value is a string in
every case except when the successfully extracted
`choices[0].message.content` of the response is itself a non-string JSON
value, in which case that value is returned as-is. -/
theorem summarize_text_total_result_shape
    (text api_key : String) (word_limit : Nat) (outcome : HttpOutcome) :
    (∃ s, summarize_text text api_key word_limit outcome = Json.str s)
    ∨ ∃ status j, outcome = HttpOutcome.response status (some j)
        ∧ firstChoiceContent j
            = some (summarize_text text api_key word_limit outcome) := by
  cases outcome with
  | failure msg => exact Or.inl ⟨_, rfl⟩
  | response status body =>
    by_cases hst : 400 ≤ status ∧ status < 600
    · exact Or.inl ⟨"Error making API request: " ++ raiseForStatusMsg status,
        by simp [summarize_text, tryBlock, hst, handleExc]⟩
    · cases body with
      | none => exact Or.inl ⟨"Error: Could not parse API response",
          by simp [summarize_text, tryBlock, hst, handleExc]⟩
      | some j =>
        have hsum : summarize_text text api_key word_limit
            (HttpOutcome.response status (some j))
            = match processResult j with
              | .ok v => v
              | .error e => .str (handleExc e) := by
          simp [summarize_text, tryBlock, hst]
        cases hpr : processResult j with
        | error e =>
          refine Or.inl ⟨handleExc e, ?_⟩
          rw [hsum, hpr]
        | ok v =>
          rcases processResult_ok j v hpr with hv | hv
          · refine Or.inl ⟨"Error: Unexpected response format from API", ?_⟩
            rw [hsum, hpr]
            exact hv
          · refine Or.inr ⟨status, j, rfl, ?_⟩
            rw [hsum, hpr]
            exact hv

/-- The unamended claim C9 fails: a response whose first choice's
`message.content` is the JSON number `5` makes `summarize_text` return
that number, not a string. -/
theorem summarize_text_nonstring_counterexample :
    ¬ ∃ s, summarize_text "t" "k" 100
        (HttpOutcome.response 200 (some (Json.obj
          [("choices", Json.arr
            [Json.obj [("message", Json.obj [("content", Json.num 5)])]])])))
        = Json.str s := by
  intro ⟨s, h⟩
  have h2 : Json.num 5 = Json.str s := h
  cases h2

end TextSummarizer
